import Mathlib

/-!
Verification development for the aws-leave-management repository.

The lambda handlers (applyLeave, sendApprovalEmail, processApproval, notifyUser,
authorizer) are embedded shallowly from lambdas/app.ts: each handler becomes a pure
function from its event (and the ambient state it reads) to its result, the new state,
and the ordered list of outbound AWS-SDK effects it issues. The DynamoDB table is an
association list keyed by requestId; PutItemCommand has no condition expression in the
source, so putItem is insert-or-overwrite. The Step Functions task-token substrate and
the state machine wiring (step-function.asl.json, referenced from template.yaml but not
present among the sources) are modelled from the spec where noted.
-/

namespace LeaveMgmt

/-- JS truthiness for an optional string field: `undefined`/absent and the empty
string are both falsy (`!body.field`). -/
def isBlank : Option String → Bool
  | none => true
  | some s => s == ""

/-- One DynamoDB item of the ActualLeaveRequestsAshwin table, as written by applyLeave. -/
structure LeaveRecord where
  requestId : String
  userEmail : String
  approverEmail : String
  leaveType : String
  startDate : String
  endDate : String
  reason : String
  status : String
deriving Repr, DecidableEq

/-- The DynamoDB table: one row per requestId (the hash key). -/
abbrev Table := List (String × LeaveRecord)

/-- GetItemCommand on the requestId key. -/
def getItem (t : Table) (k : String) : Option LeaveRecord :=
  (t.find? (fun p => p.1 == k)).map (fun p => p.2)

/-- PutItemCommand as issued by applyLeave: there is no ConditionExpression in the
source, so DynamoDB insert-or-overwrites the item with the same key. -/
def putItem (t : Table) (r : LeaveRecord) : Table :=
  (r.requestId, r) :: t.filter (fun p => !(p.1 == r.requestId))

/-- The leaveDetails object built by applyLeave. -/
structure LeaveDetails where
  leaveType : String
  startDate : String
  endDate : String
  reason : String
deriving Repr, DecidableEq

/-- The StartExecutionCommand input object built by applyLeave. -/
structure SfnInput where
  requestId : String
  userEmail : String
  approverEmail : String
  leaveDetails : LeaveDetails
  apiBaseUrl : String
deriving Repr, DecidableEq

/-- Outbound AWS SDK calls, in the order the handlers issue them. -/
inductive Effect where
  | dynamoPut (r : LeaveRecord)
  | sfnStart (input : SfnInput)
  | sesSend (dest : String) (subject : String) (html : String)
  | sfnTaskSuccess (taskToken : String) (outputApprovalStatus : String)
deriving Repr, DecidableEq

/-- APIGatewayProxyResult, restricted to the fields the handlers set. -/
structure ApiResult where
  statusCode : Nat
  body : String
deriving Repr, DecidableEq

/-- The parsed JSON body of an /apply-leave request (JSON.parse(event.body)). -/
structure ApplyBody where
  userEmail : Option String
  approverEmail : Option String
  leaveType : Option String
  startDate : Option String
  endDate : Option String
  reason : Option String
deriving Repr, DecidableEq

/-- The APIGatewayProxyEvent fields applyLeave can see. The authorizer context
(`event.requestContext.authorizer.userEmail`) is part of the inbound event but is
never read by the source handler. -/
structure ApplyEvent where
  body : ApplyBody
  domainName : String
  stage : String
  authorizerUserEmail : Option String
deriving Repr, DecidableEq

/-- `body.reason || "Not provided"`. -/
def orNotProvided : Option String → String
  | none => "Not provided"
  | some s => if s == "" then "Not provided" else s

/-- The validation guard of applyLeave, in source order:
`!body.userEmail || !body.leaveType || !body.startDate || !body.endDate || !body.approverEmail`. -/
def requiredMissing (b : ApplyBody) : Bool :=
  isBlank b.userEmail || isBlank b.leaveType || isBlank b.startDate || isBlank b.endDate ||
    isBlank b.approverEmail

/-- JSON.stringify of the leaveDetails object. -/
def detailsJson (d : LeaveDetails) : String :=
  "\x7b\"leaveType\":\"" ++ d.leaveType ++ "\",\"startDate\":\"" ++ d.startDate ++
    "\",\"endDate\":\"" ++ d.endDate ++ "\",\"reason\":\"" ++ d.reason ++ "\"\x7d"

/-- Success body of applyLeave. -/
def applyOkBody (rid : String) : String :=
  "\x7b\"message\":\"Leave applied\",\"requestId\":\"" ++ rid ++ "\"\x7d"

/-- 400 body of applyLeave. -/
def missingFieldsBody : String :=
  "\x7b\"message\":\"Missing required fields\"\x7d"

/-- 400 body of processApproval. -/
def missingParamsBody : String :=
  "\x7b\"message\":\"Missing required query parameters\"\x7d"

/-- 500 body of both handlers' catch blocks. -/
def serverErrorBody : String :=
  "\x7b\"message\":\"Internal server error\"\x7d"

/-- The DynamoDB item applyLeave writes: requestId is LEAVE-Date.now(), status PENDING. -/
def mkLeaveRecord (now : Nat) (b : ApplyBody) : LeaveRecord :=
  { requestId := "LEAVE-" ++ toString now
    userEmail := b.userEmail.getD ""
    approverEmail := b.approverEmail.getD ""
    leaveType := b.leaveType.getD ""
    startDate := b.startDate.getD ""
    endDate := b.endDate.getD ""
    reason := orNotProvided b.reason
    status := "PENDING" }

/-- The base URL applyLeave extracts from the inbound event:
`https://` + event.requestContext.domainName + `/` + event.requestContext.stage. -/
def apiBaseUrlOf (ev : ApplyEvent) : String :=
  "https://" ++ ev.domainName ++ "/" ++ ev.stage

/-- The StartExecutionCommand input applyLeave builds. -/
def mkSfnInput (now : Nat) (ev : ApplyEvent) : SfnInput :=
  { requestId := "LEAVE-" ++ toString now
    userEmail := ev.body.userEmail.getD ""
    approverEmail := ev.body.approverEmail.getD ""
    leaveDetails :=
      { leaveType := ev.body.leaveType.getD ""
        startDate := ev.body.startDate.getD ""
        endDate := ev.body.endDate.getD ""
        reason := orNotProvided ev.body.reason }
    apiBaseUrl := apiBaseUrlOf ev }

/-- applyLeave (lambdas/app.ts): validate, PutItem the PENDING record, then
StartExecution with the input and the event-derived base URL. -/
def applyLeave (now : Nat) (ev : ApplyEvent) (table : Table) :
    ApiResult × Table × List Effect :=
  if requiredMissing ev.body then
    ({ statusCode := 400, body := missingFieldsBody }, table, [])
  else
    let record := mkLeaveRecord now ev.body
    let input := mkSfnInput now ev
    ({ statusCode := 200, body := applyOkBody record.requestId },
      putItem table record,
      [Effect.dynamoPut record, Effect.sfnStart input])

/-- Hex digit used by percent-encoding (uppercase, as encodeURIComponent emits). -/
def hexDigit (n : Nat) : Char :=
  if n < 10 then Char.ofNat (48 + n) else Char.ofNat (55 + n)

/-- UTF-8 bytes of a code point. -/
def utf8Bytes (n : Nat) : List Nat :=
  if n < 128 then [n]
  else if n < 2048 then [192 + n / 64, 128 + n % 64]
  else if n < 65536 then [224 + n / 4096, 128 + n / 64 % 64, 128 + n % 64]
  else [240 + n / 262144, 128 + n / 4096 % 64, 128 + n / 64 % 64, 128 + n % 64]

/-- Percent-encoding of one byte. -/
def pctByte (b : Nat) : String :=
  String.mk ['%', hexDigit (b / 16), hexDigit (b % 16)]

/-- The characters ECMAScript encodeURIComponent leaves unescaped. -/
def isUriUnreserved (c : Char) : Bool :=
  c.isAlpha || c.isDigit ||
  c = '-' || c = '_' || c = '.' || c = '!' || c = '~' || c = '*' || c = Char.ofNat 39 ||
  c = '(' || c = ')'

/-- ECMAScript encodeURIComponent. -/
def encodeURIComponent (s : String) : String :=
  String.join (s.data.map fun c =>
    if isUriUnreserved c then String.mk [c]
    else String.join ((utf8Bytes c.toNat).map pctByte))

/-- The event passed to the sendApprovalEmail task by the state machine. -/
structure AskEvent where
  requestId : String
  userEmail : String
  approverEmail : String
  leaveDetails : LeaveDetails
  taskToken : String
  apiBaseUrl : String
deriving Repr, DecidableEq

/-- The approve link built by sendApprovalEmail. -/
def approveUrl (e : AskEvent) : String :=
  e.apiBaseUrl ++ "/process-approval?requestId=" ++ e.requestId ++
    "&action=approve&taskToken=" ++ encodeURIComponent e.taskToken

/-- The reject link built by sendApprovalEmail. -/
def rejectUrl (e : AskEvent) : String :=
  e.apiBaseUrl ++ "/process-approval?requestId=" ++ e.requestId ++
    "&action=reject&taskToken=" ++ encodeURIComponent e.taskToken

/-- The interpolated parts of the approval email body (the inert HTML/CSS wrapper text
of the template literal is elided). -/
def approvalEmailHtml (e : AskEvent) : String :=
  "<p>A leave request (" ++ e.requestId ++ ") from " ++ e.userEmail ++
    " needs your approval:</p><p>Details: " ++ detailsJson e.leaveDetails ++
    "</p><p><a href=\"" ++ approveUrl e ++ "\"><button>Approve</button></a> <a href=\"" ++
    rejectUrl e ++ "\"><button>Reject</button></a></p>"

/-- sendApprovalEmail: one SES SendEmailCommand to the approver. -/
def sendApprovalEmail (e : AskEvent) : List Effect :=
  [Effect.sesSend e.approverEmail "Leave Approval Request" (approvalEmailHtml e)]

/-- The decision mapping of processApproval:
`action === "approve" ? "APPROVED" : "REJECTED"`. -/
def decideStatus (action : String) : String :=
  if action = "approve" then "APPROVED" else "REJECTED"

/-- `.toLowerCase()`. -/
def toLowerStr (s : String) : String :=
  String.mk (s.data.map Char.toLower)

/-- The query string parameters of a /process-approval GET. -/
structure ResumeEvent where
  requestId : Option String
  action : Option String
  taskToken : Option String
deriving Repr, DecidableEq

/-- The guard of processApproval: `!requestId || !action || !taskToken`. -/
def resumeMissing (ev : ResumeEvent) : Bool :=
  isBlank ev.requestId || isBlank ev.action || isBlank ev.taskToken

/-- Modelled from the spec: one suspended Step Functions execution
(step-function.asl.json is referenced by template.yaml but absent from the sources).
A workflow holds the StartExecution input, the task token minted at the
waitForTaskToken suspension, and whether that token has been consumed (§3, §4.3). -/
structure Workflow where
  token : String
  input : SfnInput
  consumed : Bool
deriving Repr, DecidableEq

/-- The suspended executions of the Step Functions substrate. -/
abbrev Workflows := List Workflow

/-- Lookup of a suspended workflow by its task token. -/
def findWorkflow (ws : Workflows) (tok : String) : Option Workflow :=
  ws.find? (fun w => w.token == tok)

/-- Modelled from the spec: SendTaskSuccessCommand semantics of the substrate (§4.3,
§5) — redemption and consumption are atomic; an unknown or already-consumed token makes
the call throw (returns none), so exactly the first redemption of a token succeeds. -/
def sendTaskSuccess (ws : Workflows) (tok : String) : Option Workflows :=
  match findWorkflow ws tok with
  | none => none
  | some w =>
    if w.consumed then none
    else some (ws.map fun v => if v.token == tok then { v with consumed := true } else v)

/-- Success body of processApproval. -/
def resumeOkBody (rid st : String) : String :=
  "\x7b\"message\":\"Leave request " ++ rid ++ " " ++ toLowerStr st ++ "\"\x7d"

/-- processApproval (lambdas/app.ts): validate the query parameters, map the action to
APPROVED/REJECTED, SendTaskSuccess with the token; the catch block turns any thrown
SDK error into a 500. The DynamoDB table is not touched (it is not even an argument):
the handler issues no Dynamo calls. -/
def processApproval (ev : ResumeEvent) (ws : Workflows) :
    ApiResult × Workflows × List Effect :=
  if resumeMissing ev then
    ({ statusCode := 400, body := missingParamsBody }, ws, [])
  else
    let rid := ev.requestId.getD ""
    let action := ev.action.getD ""
    let tok := ev.taskToken.getD ""
    let st := decideStatus action
    match sendTaskSuccess ws tok with
    | some ws2 =>
      ({ statusCode := 200, body := resumeOkBody rid st }, ws2, [Effect.sfnTaskSuccess tok st])
    | none =>
      ({ statusCode := 500, body := serverErrorBody }, ws, [])

/-- The event passed to the notifyUser task by the state machine. -/
structure NotifyEvent where
  requestId : String
  userEmail : String
  approvalStatus : String
  leaveDetails : LeaveDetails
deriving Repr, DecidableEq

/-- `approvalStatus === "APPROVED" ? "APPROVED" : "REJECTED"`. -/
def statusText (s : String) : String :=
  if s = "APPROVED" then "APPROVED" else "REJECTED"

/-- The interpolated parts of the outcome email body. -/
def notifyOutcomeHtml (e : NotifyEvent) : String :=
  "<p>Your leave request (" ++ e.requestId ++ ") has been " ++ statusText e.approvalStatus ++
    ".</p><p>Details: " ++ detailsJson e.leaveDetails ++ "</p>"

/-- notifyUser: one SES SendEmailCommand to the requester. -/
def notifyUser (e : NotifyEvent) : List Effect :=
  [Effect.sesSend e.userEmail "Leave Request Outcome" (notifyOutcomeHtml e)]

/-- The cross-invocation state: the DynamoDB table plus the Step Functions substrate. -/
structure SysState where
  table : Table
  workflows : Workflows
deriving Repr, DecidableEq

/-- The sendApprovalEmail task event assembled by the state machine from the execution
input and the minted task token. -/
def mkAskEvent (input : SfnInput) (taskToken : String) : AskEvent :=
  { requestId := input.requestId
    userEmail := input.userEmail
    approverEmail := input.approverEmail
    leaveDetails := input.leaveDetails
    taskToken := taskToken
    apiBaseUrl := input.apiBaseUrl }

/-- Modelled from the spec: StartExecution reaction of the missing
step-function.asl.json — the state machine runs the sendApprovalEmail task with the
execution input plus a freshly minted task token (here a parameter) and suspends at
waitForTaskToken (§2, §4.1). -/
def startWorkflow (tok : String) (input : SfnInput) (ws : Workflows) :
    Workflows × List Effect :=
  ({ token := tok, input := input, consumed := false } :: ws,
    sendApprovalEmail (mkAskEvent input tok))

/-- Create end-to-end: the applyLeave handler followed, on success, by the substrate
reaction to its StartExecutionCommand. -/
def createRequest (now : Nat) (tok : String) (ev : ApplyEvent) (s : SysState) :
    ApiResult × SysState × List Effect :=
  match applyLeave now ev s.table with
  | (res, table2, effs) =>
    if res.statusCode = 200 then
      match startWorkflow tok (mkSfnInput now ev) s.workflows with
      | (ws2, askEffs) => (res, { table := table2, workflows := ws2 }, effs ++ askEffs)
    else
      (res, { table := table2, workflows := s.workflows }, effs)

/-- Modelled from the spec: Resume end-to-end — the processApproval handler followed,
on successful task-token redemption, by the state machine resuming and running the
notifyUser task with the execution input captured at creation plus the approvalStatus
delivered in the SendTaskSuccess output (§2, §4.1). The DynamoDB table is passed
through untouched because neither processApproval nor notifyUser issues any DynamoDB
call in the source. -/
def resumeRequest (ev : ResumeEvent) (s : SysState) : ApiResult × SysState × List Effect :=
  match processApproval ev s.workflows with
  | (res, ws2, effs) =>
    if res.statusCode = 200 then
      match findWorkflow s.workflows (ev.taskToken.getD "") with
      | some w =>
        (res, { table := s.table, workflows := ws2 },
          effs ++ notifyUser
            { requestId := w.input.requestId
              userEmail := w.input.userEmail
              approvalStatus := decideStatus (ev.action.getD "")
              leaveDetails := w.input.leaveDetails })
      | none => (res, { table := s.table, workflows := ws2 }, effs)
    else
      (res, { table := s.table, workflows := ws2 }, effs)

/-- Destinations of the SES sends in an effect trace. -/
def sesDests (l : List Effect) : List String :=
  l.filterMap fun e =>
    match e with
    | Effect.sesSend d _ _ => some d
    | _ => none

/-- Number of SES sends in an effect trace. -/
def sesCount (l : List Effect) : Nat :=
  (sesDests l).length

/-- A query string as an explicit list of key-value pairs, rendered the way a URL
carries them: `k=v` joined by `&`. -/
def renderQuery : List (String × String) → String
  | [] => ""
  | [p] => p.1 ++ "=" ++ p.2
  | p :: ps => p.1 ++ "=" ++ p.2 ++ "&" ++ renderQuery ps

/-- The APIGatewayTokenAuthorizerEvent fields the authorizer reads. -/
structure AuthEvent where
  authorizationToken : String
  methodArn : String
deriving Repr, DecidableEq

/-- One policy statement of an APIGatewayAuthorizerResult. -/
structure PolicyStatement where
  action : String
  effect : String
  resource : String
deriving Repr, DecidableEq

/-- APIGatewayAuthorizerResult, restricted to the fields the authorizer sets. -/
structure AuthPolicy where
  principalId : String
  statement : PolicyStatement
  contextUserEmail : Option String
deriving Repr, DecidableEq

/-- JS `s.replace(pat, "")` for a non-empty plain-string pattern: removes the first
occurrence of pat, if any. -/
def replaceFirstList (pat : List Char) : List Char → List Char
  | [] => []
  | c :: cs =>
    if pat.isPrefixOf (c :: cs) then List.drop pat.length (c :: cs)
    else c :: replaceFirstList pat cs

/-- JS `s.replace(pat, "")` on strings (the authorizer uses pat = "Bearer "). -/
def jsReplaceOnce (s pat : String) : String :=
  if pat = "" then s else String.mk (replaceFirstList pat.data s.data)

/-- The Allow policy the authorizer returns on successful verification. -/
def allowPolicy (ev : AuthEvent) (email : String) : AuthPolicy :=
  { principalId := email
    statement := { action := "execute-api:Invoke", effect := "Allow", resource := ev.methodArn }
    contextUserEmail := some email }

/-- The Deny policy the authorizer's catch block returns. -/
def denyPolicy (ev : AuthEvent) : AuthPolicy :=
  { principalId := "unauthorized"
    statement := { action := "execute-api:Invoke", effect := "Deny", resource := ev.methodArn }
    contextUserEmail := none }

/-- authorizer (hello-world/app.ts): strip the "Bearer " marker, throw when the secret
is unset (falsy), jwt.verify the token; any throw is caught and the Deny policy
returned. jwt.verify is a library collaborator, passed as an oracle that returns the
verified token's email claim or none when verification throws. -/
def authorizer (verify : String → String → Option String) (secret : Option String)
    (ev : AuthEvent) : AuthPolicy :=
  let token := jsReplaceOnce ev.authorizationToken "Bearer "
  if isBlank secret then denyPolicy ev
  else
    match verify token (secret.getD "") with
    | some email => allowPolicy ev email
    | none => denyPolicy ev

/-- A well-formed creation body used as a concrete fixture. -/
def sampleBody : ApplyBody :=
  { userEmail := some "user@x.com"
    approverEmail := some "approver@x.com"
    leaveType := some "Vacation"
    startDate := some "2025-04-01"
    endDate := some "2025-04-05"
    reason := none }

/-- A well-formed /apply-leave event used as a concrete fixture. -/
def sampleEvent : ApplyEvent :=
  { body := sampleBody
    domainName := "api.example.com"
    stage := "Prod"
    authorizerUserEmail := some "user@x.com" }

/-- The empty system state. -/
def emptySys : SysState := { table := [], workflows := [] }

/-- State after one successful create at now = 100 with token tok1. -/
def sys1 : SysState := (createRequest 100 "tok1" sampleEvent emptySys).2.1

/-- The Resume callback carried by the approve link of sys1's request. -/
def resumeEv1 : ResumeEvent :=
  { requestId := some "LEAVE-100", action := some "approve", taskToken := some "tok1" }

/-- State after redeeming sys1's token once. -/
def sys2 : SysState := (resumeRequest resumeEv1 sys1).2.1

/-- A pre-existing stored record under the key LEAVE-100. -/
def oldRecord : LeaveRecord :=
  { requestId := "LEAVE-100"
    userEmail := "old@x.com"
    approverEmail := "oldappr@x.com"
    leaveType := "Sick"
    startDate := "2025-01-01"
    endDate := "2025-01-02"
    reason := "old"
    status := "PENDING" }

/-- An /apply-leave event whose authorizer context carries an identity while the JSON
body has no userEmail field — the shape the repository's own tests submit. -/
def noBodyEmailEvent : ApplyEvent :=
  { body := { sampleBody with userEmail := none }
    domainName := "api.example.com"
    stage := "Prod"
    authorizerUserEmail := some "auth@x.com" }

/-- An /apply-leave event whose body and authorizer context carry different identities. -/
def bodyEmailEvent : ApplyEvent :=
  { body := { sampleBody with userEmail := some "body@x.com" }
    domainName := "api.example.com"
    stage := "Prod"
    authorizerUserEmail := some "auth@x.com" }

/-- Creation event for requester a@x.com. -/
def evA : ApplyEvent := { sampleEvent with body := { sampleBody with userEmail := some "a@x.com" } }

/-- Creation event for requester b@x.com. -/
def evB : ApplyEvent := { sampleEvent with body := { sampleBody with userEmail := some "b@x.com" } }

/-- Two creates in the same millisecond (Date.now() = 100): both produce requestId
LEAVE-100, the second PutItem overwrites the first record, and two suspended workflows
hold the two distinct execution inputs. -/
def sysAB : SysState :=
  (createRequest 100 "tokB" evB (createRequest 100 "tokA" evA emptySys).2.1).2.1

/-- A suspended workflow fixture with an unconsumed token. -/
def wf1 : Workflow :=
  { token := "tok1", input := mkSfnInput 100 sampleEvent, consumed := false }

/-- A concrete jwt.verify oracle: accepts exactly token tok123 under secret sec. -/
def vfy1 : String → String → Option String :=
  fun t s => if t == "tok123" && s == "sec" then some "user@example.com" else none

/-- A concrete authorizer event carrying a Bearer token. -/
def authEv1 : AuthEvent :=
  { authorizationToken := "Bearer tok123"
    methodArn := "arn:aws:execute-api:r:a:apiid/Prod/POST/apply-leave" }

/-- A stored record survives (and is returned by) the put that wrote it: the put key is
the record's requestId, found first by getItem. -/
theorem getItem_putItem (t : Table) (r : LeaveRecord) :
    getItem (putItem t r) r.requestId = some r := by
  simp [getItem, putItem, List.find?]

/-- Two strings with the same character data are equal. -/
theorem string_eq_of_data (a b : String) (h : a.data = b.data) : a = b := by
  cases a
  cases b
  exact congrArg String.mk h

/-- Appending strings appends their character data. -/
theorem data_append (a b : String) : (a ++ b).data = a.data ++ b.data := by
  cases a
  cases b
  rfl

/-- C3: for every valid creation input, Create returns the requestId, and the effect
trace is exactly the PutItem of a PENDING record followed (strictly after it) by the
workflow start and the approval ask; the record is persisted under its requestId. -/
theorem C3_create_pending_before_ask (now : Nat) (tok : String) (ev : ApplyEvent)
    (s : SysState) (h : requiredMissing ev.body = false) :
    ∃ r i ask,
      createRequest now tok ev s =
        ({ statusCode := 200, body := applyOkBody ("LEAVE-" ++ toString now) },
          { table := putItem s.table r,
            workflows := { token := tok, input := i, consumed := false } :: s.workflows },
          [Effect.dynamoPut r, Effect.sfnStart i, ask]) ∧
      r.status = "PENDING" ∧
      r.requestId = "LEAVE-" ++ toString now ∧
      getItem (putItem s.table r) r.requestId = some r ∧
      ask = Effect.sesSend r.approverEmail "Leave Approval Request"
        (approvalEmailHtml (mkAskEvent i tok)) := by
  refine ⟨mkLeaveRecord now ev.body, mkSfnInput now ev,
    Effect.sesSend (mkLeaveRecord now ev.body).approverEmail "Leave Approval Request"
      (approvalEmailHtml (mkAskEvent (mkSfnInput now ev) tok)),
    ?_, rfl, rfl, getItem_putItem _ _, rfl⟩
  simp [createRequest, applyLeave, h, startWorkflow, sendApprovalEmail]
  exact ⟨rfl, rfl⟩

/-- C3 witness: the theorem applied to the concrete sample creation. -/
theorem C3_create_pending_before_ask_witness :
    ∃ r i ask,
      createRequest 100 "tok1" sampleEvent emptySys =
        ({ statusCode := 200, body := applyOkBody ("LEAVE-" ++ toString 100) },
          { table := putItem emptySys.table r,
            workflows :=
              { token := "tok1", input := i, consumed := false } :: emptySys.workflows },
          [Effect.dynamoPut r, Effect.sfnStart i, ask]) ∧
      r.status = "PENDING" ∧
      r.requestId = "LEAVE-" ++ toString 100 ∧
      getItem (putItem emptySys.table r) r.requestId = some r ∧
      ask = Effect.sesSend r.approverEmail "Leave Approval Request"
        (approvalEmailHtml (mkAskEvent i "tok1")) :=
  C3_create_pending_before_ask 100 "tok1" sampleEvent emptySys (by decide)

/-- C4: a creation input with any of the five required fields (requester userEmail,
approverEmail, leaveType, startDate, endDate) missing or empty is rejected with the
400 validation error, writes no record, and dispatches no effect at all. -/
theorem C4_validation_rejects_and_writes_nothing (now : Nat) (tok : String)
    (ev : ApplyEvent) (s : SysState)
    (h : isBlank ev.body.userEmail = true ∨ isBlank ev.body.approverEmail = true ∨
      isBlank ev.body.leaveType = true ∨ isBlank ev.body.startDate = true ∨
      isBlank ev.body.endDate = true) :
    createRequest now tok ev s = ({ statusCode := 400, body := missingFieldsBody }, s, []) := by
  have hm : requiredMissing ev.body = true := by
    unfold requiredMissing
    rcases h with h | h | h | h | h <;> simp [h]
  simp [createRequest, applyLeave, hm]

/-- C4 witness: the theorem applied to a concrete body whose endDate is empty. -/
theorem C4_validation_witness :
    createRequest 100 "tok1"
        { body := { sampleBody with endDate := some "" }
          domainName := "api.example.com", stage := "Prod"
          authorizerUserEmail := some "user@x.com" }
        emptySys =
      ({ statusCode := 400, body := missingFieldsBody }, emptySys, []) :=
  C4_validation_rejects_and_writes_nothing 100 "tok1"
    { body := { sampleBody with endDate := some "" }
      domainName := "api.example.com", stage := "Prod"
      authorizerUserEmail := some "user@x.com" }
    emptySys (by decide)

/-- C5: with all query parameters present and a non-empty decision, the status handed
to the workflow is the result of an equality check of the action against the literal
"approve": it is APPROVED exactly when the action equals "approve", and REJECTED for
every other non-empty value. -/
theorem C5_decision_is_equality_with_approve (ev : ResumeEvent) (ws : Workflows)
    (a : String) (ha : ev.action = some a) (hne : a ≠ "")
    (hm : resumeMissing ev = false)
    (hok : sendTaskSuccess ws (ev.taskToken.getD "") ≠ none) :
    (processApproval ev ws).2.2 =
      [Effect.sfnTaskSuccess (ev.taskToken.getD "") (decideStatus a)] ∧
    (decideStatus a = "APPROVED" ↔ a = "approve") ∧
    (decideStatus a = "REJECTED" ↔ a ≠ "approve") := by
  obtain ⟨ws2, hws2⟩ : ∃ x, sendTaskSuccess ws (ev.taskToken.getD "") = some x := by
    cases hq : sendTaskSuccess ws (ev.taskToken.getD "")
    · exact absurd hq hok
    · exact ⟨_, rfl⟩
  refine ⟨?_, ?_, ?_⟩
  · simp [processApproval, hm, ha, hws2]
  · by_cases hap : a = "approve"
    · subst hap
      decide
    · rw [decideStatus, if_neg hap]
      exact ⟨fun hh => absurd hh (by decide), fun hh => absurd hh hap⟩
  · by_cases hap : a = "approve"
    · subst hap
      decide
    · rw [decideStatus, if_neg hap]
      exact ⟨fun _ => hap, fun _ => rfl⟩

/-- C5 witness: the theorem applied to the non-approve action Approve (capitalised),
which maps to REJECTED. -/
theorem C5_decision_witness :
    (processApproval
        { requestId := some "LEAVE-100", action := some "Approve", taskToken := some "tok1" }
        [wf1]).2.2 =
      [Effect.sfnTaskSuccess "tok1" (decideStatus "Approve")] ∧
    (decideStatus "Approve" = "APPROVED" ↔ ("Approve" : String) = "approve") ∧
    (decideStatus "Approve" = "REJECTED" ↔ ("Approve" : String) ≠ "approve") :=
  C5_decision_is_equality_with_approve
    { requestId := some "LEAVE-100", action := some "Approve", taskToken := some "tok1" }
    [wf1] "Approve" rfl (by decide) (by decide) (by decide)

/-- C6 counterexample: with a record already stored under LEAVE-100, a create that
puts the same requestId succeeds (200) and silently replaces the stored record with a
different one — it does not fail with DuplicateKey and does not leave the existing
record unchanged, refuting the claim at this concrete input. -/
theorem C6_counterexample_silent_overwrite :
    (applyLeave 100 sampleEvent [("LEAVE-100", oldRecord)]).1.statusCode = 200 ∧
    getItem (applyLeave 100 sampleEvent [("LEAVE-100", oldRecord)]).2.1 "LEAVE-100" =
      some (mkLeaveRecord 100 sampleBody) ∧
    mkLeaveRecord 100 sampleBody ≠ oldRecord := by decide

/-- C6 amended: the PutItem issued at creation has no condition expression, so a put
whose requestId already exists succeeds and overwrites: creation returns 200 and the
stored record under the key is always the newly written one, whatever the prior table
held. -/
theorem C6_put_overwrites_existing_key (now : Nat) (tok : String) (ev : ApplyEvent)
    (s : SysState) (h : requiredMissing ev.body = false) :
    (createRequest now tok ev s).1.statusCode = 200 ∧
    getItem (createRequest now tok ev s).2.1.table ("LEAVE-" ++ toString now) =
      some (mkLeaveRecord now ev.body) ∧
    ∀ (t : Table) (r : LeaveRecord), getItem (putItem t r) r.requestId = some r := by
  refine ⟨?_, ?_, fun t r => getItem_putItem t r⟩
  · simp [createRequest, applyLeave, h]
  · have htab : (createRequest now tok ev s).2.1.table =
        putItem s.table (mkLeaveRecord now ev.body) := by
      simp [createRequest, applyLeave, h, startWorkflow]
    rw [htab]
    exact getItem_putItem s.table (mkLeaveRecord now ev.body)

/-- C6 witness: the amended theorem applied to a state whose table already holds a
record under the colliding key LEAVE-100. -/
theorem C6_put_overwrites_witness :
    (createRequest 100 "tok1" sampleEvent
        { table := [("LEAVE-100", oldRecord)], workflows := [] }).1.statusCode = 200 ∧
    getItem
        (createRequest 100 "tok1" sampleEvent
          { table := [("LEAVE-100", oldRecord)], workflows := [] }).2.1.table
        ("LEAVE-" ++ toString 100) =
      some (mkLeaveRecord 100 sampleEvent.body) ∧
    ∀ (t : Table) (r : LeaveRecord), getItem (putItem t r) r.requestId = some r :=
  C6_put_overwrites_existing_key 100 "tok1" sampleEvent
    { table := [("LEAVE-100", oldRecord)], workflows := [] } (by decide)

/-- C7: evaluation at the failing input. The handler reads the requester identity from
the client JSON body, not from the authorizer context: with an authenticated identity
present but no body userEmail it answers 400 Missing required fields (not 403/401,
and it persists nothing), and when body and authorizer identities differ, the
persisted requesterAddress is the client-supplied body value — contradicting the claim
and the repository's own tests, which expect the authorizer identity to be used and a
403 Unauthorized when it is absent. -/
theorem C7_requester_identity_from_client_body :
    (applyLeave 100 noBodyEmailEvent []).1.statusCode = 400 ∧
    (applyLeave 100 noBodyEmailEvent []).2.2 = [] ∧
    (applyLeave 100 noBodyEmailEvent []).2.1 = [] ∧
    (getItem (applyLeave 100 bodyEmailEvent []).2.1 "LEAVE-100").map LeaveRecord.userEmail =
      some "body@x.com" ∧
    bodyEmailEvent.authorizerUserEmail = some "auth@x.com" ∧
    ("body@x.com" : String) ≠ "auth@x.com" := by decide

/-- C1: evaluation at the failing input. After a create (Date.now() = 100, token
tok1), the first Resume with the valid token returns 200 and sends the outcome
notification to the requester, but the stored record's status is still PENDING — the
handlers never issue any DynamoDB write after creation, so the store never reflects the
decision, contradicting the claim (and the README's "Clicking a link updates the
request status"). The replayed Resume with the consumed token fails as a generic 500
(not a TokenAlreadyConsumed caller error), changes no state and resends nothing. -/
theorem C1_resume_never_updates_stored_status :
    (resumeRequest resumeEv1 sys1).1.statusCode = 200 ∧
    sesDests (resumeRequest resumeEv1 sys1).2.2 = ["user@x.com"] ∧
    (getItem sys2.table "LEAVE-100").map LeaveRecord.status = some "PENDING" ∧
    (resumeRequest resumeEv1 sys2).1.statusCode = 500 ∧
    (resumeRequest resumeEv1 sys2).2.1 = sys2 ∧
    sesCount (resumeRequest resumeEv1 sys2).2.2 = 0 := by decide

/-- C2 counterexample: a Resume whose token was never issued is answered with a bare
500 Internal server error, not with a 400-equivalent TokenNotFound caller error,
refuting the claim at this concrete input. -/
theorem C2_counterexample_unknown_token_yields_500 :
    (resumeRequest
        { requestId := some "LEAVE-100", action := some "approve", taskToken := some "tokZ" }
        sys1).1.statusCode = 500 ∧
    (resumeRequest
        { requestId := some "LEAVE-100", action := some "approve", taskToken := some "tokZ" }
        sys1).1.statusCode ≠ 400 := by decide

/-- C2 amended: a Resume with all parameters present but an unknown token makes
SendTaskSuccess throw; the catch block surfaces a 500 server error (never a success),
the whole system state is left unchanged, and no effect — in particular no
notification — is dispatched. -/
theorem C2_unknown_token_500_no_mutation_no_mail (ev : ResumeEvent) (s : SysState)
    (hm : resumeMissing ev = false)
    (hu : findWorkflow s.workflows (ev.taskToken.getD "") = none) :
    resumeRequest ev s = ({ statusCode := 500, body := serverErrorBody }, s, []) := by
  have hst : sendTaskSuccess s.workflows (ev.taskToken.getD "") = none := by
    simp [sendTaskSuccess, hu]
  simp [resumeRequest, processApproval, hm, hst]

/-- C2 witness: the amended theorem applied to the unknown token tokZ against the
state holding only token tok1. -/
theorem C2_unknown_token_witness :
    resumeRequest
        { requestId := some "LEAVE-100", action := some "approve", taskToken := some "tokZ" }
        sys1 =
      ({ statusCode := 500, body := serverErrorBody }, sys1, []) :=
  C2_unknown_token_500_no_mutation_no_mail
    { requestId := some "LEAVE-100", action := some "approve", taskToken := some "tokZ" }
    sys1 (by decide) (by decide)

/-- C8 counterexample: the notification fields are NOT loaded from the RequestStore
record. Two creates in the same millisecond share requestId LEAVE-100; the second
overwrites the stored record (userEmail b@x.com), yet redeeming the first workflow's
token sends the outcome notice to a@x.com — the address carried in the workflow state,
not the one in the store record written at creation of that state, refuting the claim
at this concrete, reachable input. -/
theorem C8_counterexample_notification_not_from_store :
    (resumeRequest
        { requestId := some "LEAVE-100", action := some "approve", taskToken := some "tokA" }
        sysAB).1.statusCode = 200 ∧
    sesDests
        (resumeRequest
          { requestId := some "LEAVE-100", action := some "approve", taskToken := some "tokA" }
          sysAB).2.2 = ["a@x.com"] ∧
    (getItem sysAB.table "LEAVE-100").map LeaveRecord.userEmail = some "b@x.com" ∧
    ("a@x.com" : String) ≠ "b@x.com" := by decide

/-- C8 amended: on a successful Resume the leaveDetails and requester address used in
the outcome notification come from the workflow input captured at creation time and
carried through the Step Functions state (no store read happens); the external caller
influences the effects only through the token (selecting the workflow) and the
decision (selecting the status) — the trace is a function of the matched workflow's
input and the decision alone, independent of the caller's requestId parameter and of
the table, which is passed through unchanged. -/
theorem C8_notification_fields_from_workflow_input (ev : ResumeEvent) (s : SysState)
    (w : Workflow) (hm : resumeMissing ev = false)
    (hw : findWorkflow s.workflows (ev.taskToken.getD "") = some w)
    (hc : w.consumed = false) :
    (resumeRequest ev s).2.1.table = s.table ∧
    (resumeRequest ev s).2.2 =
      [Effect.sfnTaskSuccess (ev.taskToken.getD "") (decideStatus (ev.action.getD "")),
        Effect.sesSend w.input.userEmail "Leave Request Outcome"
          (notifyOutcomeHtml
            { requestId := w.input.requestId
              userEmail := w.input.userEmail
              approvalStatus := decideStatus (ev.action.getD "")
              leaveDetails := w.input.leaveDetails })] := by
  have hst : sendTaskSuccess s.workflows (ev.taskToken.getD "") =
      some (s.workflows.map fun v =>
        if v.token == ev.taskToken.getD "" then { v with consumed := true } else v) := by
    simp [sendTaskSuccess, hw, hc]
  constructor <;> simp [resumeRequest, processApproval, hm, hst, hw, notifyUser]

/-- C8 witness: the amended theorem applied to the concrete suspended workflow wf1. -/
theorem C8_notification_witness :
    (resumeRequest resumeEv1 { table := [], workflows := [wf1] }).2.1.table =
      ({ table := [], workflows := [wf1] } : SysState).table ∧
    (resumeRequest resumeEv1 { table := [], workflows := [wf1] }).2.2 =
      [Effect.sfnTaskSuccess "tok1" (decideStatus "approve"),
        Effect.sesSend wf1.input.userEmail "Leave Request Outcome"
          (notifyOutcomeHtml
            { requestId := wf1.input.requestId
              userEmail := wf1.input.userEmail
              approvalStatus := decideStatus "approve"
              leaveDetails := wf1.input.leaveDetails })] :=
  C8_notification_fields_from_workflow_input resumeEv1
    { table := [], workflows := [wf1] } wf1 (by decide) (by decide) (by decide)

/-- C9: the approve and reject links are the event-derived base address followed by
the /process-approval path and a query string that is exactly the three pairs
requestId, action and taskToken (the token percent-encoded); and for every valid
create, the ask email dispatched by the workflow carries exactly those links built on
the base address https://domainName/stage taken from the inbound request itself. -/
theorem C9_resume_links_exact_params_and_origin (e : AskEvent) (now : Nat) (tok : String)
    (ev : ApplyEvent) (s : SysState) (h : requiredMissing ev.body = false) :
    approveUrl e =
      e.apiBaseUrl ++ "/process-approval?" ++
        renderQuery [("requestId", e.requestId), ("action", "approve"),
          ("taskToken", encodeURIComponent e.taskToken)] ∧
    rejectUrl e =
      e.apiBaseUrl ++ "/process-approval?" ++
        renderQuery [("requestId", e.requestId), ("action", "reject"),
          ("taskToken", encodeURIComponent e.taskToken)] ∧
    (mkAskEvent (mkSfnInput now ev) tok).apiBaseUrl =
      "https://" ++ ev.domainName ++ "/" ++ ev.stage ∧
    (createRequest now tok ev s).2.2 =
      [Effect.dynamoPut (mkLeaveRecord now ev.body), Effect.sfnStart (mkSfnInput now ev),
        Effect.sesSend (ev.body.approverEmail.getD "") "Leave Approval Request"
          (approvalEmailHtml (mkAskEvent (mkSfnInput now ev) tok))] := by
  refine ⟨?_, ?_, rfl, ?_⟩
  · simp only [approveUrl, renderQuery]
    apply string_eq_of_data
    simp [data_append, List.append_assoc]
  · simp only [rejectUrl, renderQuery]
    apply string_eq_of_data
    simp [data_append, List.append_assoc]
  · simp [createRequest, applyLeave, h, startWorkflow, sendApprovalEmail]
    rfl

/-- C9 witness: the theorem applied to the concrete ask event of the sample create. -/
theorem C9_resume_links_witness :
    approveUrl (mkAskEvent (mkSfnInput 100 sampleEvent) "tok1") =
      (mkAskEvent (mkSfnInput 100 sampleEvent) "tok1").apiBaseUrl ++ "/process-approval?" ++
        renderQuery
          [("requestId", (mkAskEvent (mkSfnInput 100 sampleEvent) "tok1").requestId),
            ("action", "approve"),
            ("taskToken",
              encodeURIComponent (mkAskEvent (mkSfnInput 100 sampleEvent) "tok1").taskToken)] ∧
    rejectUrl (mkAskEvent (mkSfnInput 100 sampleEvent) "tok1") =
      (mkAskEvent (mkSfnInput 100 sampleEvent) "tok1").apiBaseUrl ++ "/process-approval?" ++
        renderQuery
          [("requestId", (mkAskEvent (mkSfnInput 100 sampleEvent) "tok1").requestId),
            ("action", "reject"),
            ("taskToken",
              encodeURIComponent (mkAskEvent (mkSfnInput 100 sampleEvent) "tok1").taskToken)] ∧
    (mkAskEvent (mkSfnInput 100 sampleEvent) "tok1").apiBaseUrl =
      "https://" ++ sampleEvent.domainName ++ "/" ++ sampleEvent.stage ∧
    (createRequest 100 "tok1" sampleEvent emptySys).2.2 =
      [Effect.dynamoPut (mkLeaveRecord 100 sampleEvent.body),
        Effect.sfnStart (mkSfnInput 100 sampleEvent),
        Effect.sesSend (sampleEvent.body.approverEmail.getD "") "Leave Approval Request"
          (approvalEmailHtml (mkAskEvent (mkSfnInput 100 sampleEvent) "tok1"))] :=
  C9_resume_links_exact_params_and_origin (mkAskEvent (mkSfnInput 100 sampleEvent) "tok1")
    100 "tok1" sampleEvent emptySys (by decide)

/-- C10: the authorizer is total — it always returns either the Deny policy or an
Allow policy; whenever the secret is configured (non-empty) and verification of the
Bearer-stripped token succeeds with some email, it returns the Allow policy whose
principalId and context userEmail are that email; and whenever the secret is absent or
empty, or verification fails, it returns the Deny policy with principalId
unauthorized. -/
theorem C10_authorizer_total_policy (verify : String → String → Option String)
    (secret : Option String) (ev : AuthEvent) :
    (authorizer verify secret ev = denyPolicy ev ∨
      ∃ email, authorizer verify secret ev = allowPolicy ev email) ∧
    (∀ s email, secret = some s → s ≠ "" →
      verify (jsReplaceOnce ev.authorizationToken "Bearer ") s = some email →
      authorizer verify secret ev = allowPolicy ev email ∧
      (authorizer verify secret ev).principalId = email ∧
      (authorizer verify secret ev).contextUserEmail = some email ∧
      (authorizer verify secret ev).statement.effect = "Allow") ∧
    ((isBlank secret = true ∨
        verify (jsReplaceOnce ev.authorizationToken "Bearer ") (secret.getD "") = none) →
      authorizer verify secret ev = denyPolicy ev ∧
      (authorizer verify secret ev).principalId = "unauthorized" ∧
      (authorizer verify secret ev).statement.effect = "Deny") := by
  refine ⟨?_, ?_, ?_⟩
  · cases hb : isBlank secret
    · cases hv : verify (jsReplaceOnce ev.authorizationToken "Bearer ") (secret.getD "") with
      | none => exact Or.inl (by simp [authorizer, hb, hv])
      | some email => exact Or.inr ⟨email, by simp [authorizer, hb, hv]⟩
    · exact Or.inl (by simp [authorizer, hb])
  · intro s email hs hne hv
    have heq : authorizer verify secret ev = allowPolicy ev email := by
      subst hs
      simp [authorizer, isBlank, hne, hv]
    exact ⟨heq, by rw [heq]; rfl, by rw [heq]; rfl, by rw [heq]; rfl⟩
  · intro hd
    have heq : authorizer verify secret ev = denyPolicy ev := by
      rcases hd with hb | hv
      · simp [authorizer, hb]
      · cases hb : isBlank secret
        · simp [authorizer, hb, hv]
        · simp [authorizer, hb]
    exact ⟨heq, by rw [heq]; rfl, by rw [heq]; rfl⟩

/-- C10 witness: the theorem applied to a concrete verify oracle, secret and Bearer
event on the allow path. -/
theorem C10_authorizer_witness :
    authorizer vfy1 (some "sec") authEv1 = allowPolicy authEv1 "user@example.com" ∧
    (authorizer vfy1 (some "sec") authEv1).principalId = "user@example.com" ∧
    (authorizer vfy1 (some "sec") authEv1).contextUserEmail = some "user@example.com" ∧
    (authorizer vfy1 (some "sec") authEv1).statement.effect = "Allow" :=
  (C10_authorizer_total_policy vfy1 (some "sec") authEv1).2.1 "sec" "user@example.com"
    rfl (by decide) (by decide)

end LeaveMgmt

